import Mathlib

/-!
Verification of the page-visit-duration tracker
(`PageVisitTimeManager.ts` from extensions/applicationinsights-analytics-js).

The manager times how long a user stays on a logical page, persisting the
in-flight record in a single session-storage slot (key "prevPageVisitData").
We embed it shallowly: storage, clock, warning log and the trace of calls to
the injected reporting callback form an explicit `TimerState`; the external
capabilities (session storage, the JSON codec, the reporting callback) are a
`Caps` record that also carries fault-injection flags, so theorems quantify
over every behaviour of the collaborators, including each of them throwing.
JavaScript exceptions are modelled by `Except`: each public operation is a
`...Body` function (the try block, which may end in `.error`) wrapped by the
public function that performs the catch from the source.
-/

/-- A thrown JavaScript error, flattened to its message (`dumpObj` output). -/
abbrev JsError := String

/-- dumpObj flattens an error object to a string; errors are already strings here. -/
def dumpObj (e : JsError) : String := e

/-- Message of the error thrown by `startPageVisitTimer` when the slot is occupied. -/
def consecutiveStartMsg : String :=
  "Cannot call startPageVisit consecutively without first calling stopPageVisit"

/-- The `PageVisitData` class: page identity, start timestamp, and the duration,
which is `undefined` (here `none`) until finalization assigns it. -/
structure PageVisitData where
  pageName : String
  pageUrl : String
  pageVisitStartTime : Int
  pageVisitTime : Option Int
deriving DecidableEq

/-- The `PageVisitData` constructor: captures `dateNow()` as the start time and
leaves `pageVisitTime` unassigned. -/
def PageVisitData.new (pageName pageUrl : String) (now : Int) : PageVisitData :=
  { pageName := pageName, pageUrl := pageUrl, pageVisitStartTime := now,
    pageVisitTime := none }

/-- The mutable world the manager runs in: the session-storage slot keyed by
"prevPageVisitData", the current clock (`dateNow`), the diagnostic-logger
warning log, and the trace of arguments the reporting callback received. -/
structure TimerState where
  slot : Option String
  time : Int
  log : List String
  handlerCalls : List (String × String × Option Int)
deriving DecidableEq

/-- Behaviours of the external collaborators: availability of session storage
and JSON, the JSON codec itself (arbitrary, possibly failing, functions), and
fault flags making each storage primitive or the reporting callback throw. -/
structure Caps where
  canUse : Bool
  hasJSONCap : Bool
  stringifyR : PageVisitData → Except JsError String
  parseR : String → Except JsError PageVisitData
  getFails : Bool
  setFails : Bool
  removeFails : Bool
  handlerFails : Bool

/-- `IDiagnosticLogger.warnToConsole`: appends a warning message to the log. -/
def warnToConsole (msg : String) (st : TimerState) : TimerState :=
  { st with log := st.log ++ [msg] }

/-- `utlCanUseSessionStorage()`. -/
def utlCanUseSessionStorage (c : Caps) : Bool := c.canUse

/-- `utlGetSessionStorage(logger, key)`: returns the slot contents, or throws. -/
def utlGetSessionStorage (c : Caps) (st : TimerState) : Except JsError (Option String) :=
  if c.getFails then .error "session storage get failed" else .ok st.slot

/-- `utlSetSessionStorage(logger, key, value)`: writes the slot, or throws. -/
def utlSetSessionStorage (c : Caps) (v : String) (st : TimerState) :
    Except JsError Unit × TimerState :=
  if c.setFails then (.error "session storage set failed", st)
  else (.ok (), { st with slot := some v })

/-- `utlRemoveSessionStorage(logger, key)`: clears the slot, or throws. -/
def utlRemoveSessionStorage (c : Caps) (st : TimerState) :
    Except JsError Unit × TimerState :=
  if c.removeFails then (.error "session storage remove failed", st)
  else (.ok (), { st with slot := none })

/-- `hasJSON()`. -/
def hasJSON (c : Caps) : Bool := c.hasJSONCap

/-- `getJSON().stringify(d)`: throws when JSON is unavailable, otherwise
behaves as the codec capability dictates. -/
def jsonStringify (c : Caps) (d : PageVisitData) : Except JsError String :=
  if c.hasJSONCap then c.stringifyR d else .error "JSON stringify unavailable"

/-- `getJSON().parse(s)`: throws when JSON is unavailable, otherwise behaves
as the codec capability dictates (it may throw on malformed input). -/
def jsonParse (c : Caps) (s : String) : Except JsError PageVisitData :=
  if c.hasJSONCap then c.parseR s else .error "JSON parse unavailable"

/-- `dateNow()`. -/
def dateNow (st : TimerState) : Int := st.time

/-- JavaScript truthiness of a `string | null` value: `null` and `""` are falsy. -/
def truthy : Option String → Bool
  | none => false
  | some s => s ≠ ""

/-- The injected reporting callback `pageVisitTimeTrackingHandler`: records the
arguments it was invoked with, then either returns or throws. -/
def pageVisitTimeTrackingHandler (c : Caps) (pageName pageUrl : String)
    (pageVisitTime : Option Int) (st : TimerState) : Except JsError Unit × TimerState :=
  let st' := { st with handlerCalls := st.handlerCalls ++ [(pageName, pageUrl, pageVisitTime)] }
  if c.handlerFails then (.error "tracking handler failed", st') else (.ok (), st')

/-- Try block of `startPageVisitTimer`: if storage is usable, a non-null slot
is a consecutive start (throws); otherwise a fresh `PageVisitData` is
stringified and written to the slot. -/
def startBody (c : Caps) (pageName pageUrl : String) (st : TimerState) :
    Except JsError Unit × TimerState :=
  if utlCanUseSessionStorage c then
    match utlGetSessionStorage c st with
    | .error e => (.error e, st)
    | .ok v =>
      if v.isSome then (.error consecutiveStartMsg, st)
      else
        let currPageVisitData := PageVisitData.new pageName pageUrl (dateNow st)
        match jsonStringify c currPageVisitData with
        | .error e => (.error e, st)
        | .ok currPageVisitDataStr => utlSetSessionStorage c currPageVisitDataStr st
  else (.ok (), st)

/-- `startPageVisitTimer(pageName, pageUrl)`: the try block with its catch,
which logs a warning and swallows the failure. -/
def startPageVisitTimer (c : Caps) (pageName pageUrl : String) (st : TimerState) :
    Except JsError Unit × TimerState :=
  match startBody c pageName pageUrl st with
  | (.error e, st') => (.ok (), warnToConsole ("Call to start failed: " ++ dumpObj e) st')
  | (.ok _, st') => (.ok (), st')

/-- Try block of `stopPageVisitTimer`: reads the slot; when the stored string
is truthy and JSON is available, parses it, sets
`pageVisitTime = now - pageVisitStartTime`, removes the slot entry and returns
the record; otherwise returns null. -/
def stopBody (c : Caps) (st : TimerState) :
    Except JsError (Option PageVisitData) × TimerState :=
  if utlCanUseSessionStorage c then
    let pageVisitEndTime := dateNow st
    match utlGetSessionStorage c st with
    | .error e => (.error e, st)
    | .ok pageVisitDataJsonStr =>
      match pageVisitDataJsonStr, hasJSON c with
      | some s, true =>
        if s = "" then (.ok none, st)
        else
          match jsonParse c s with
          | .error e => (.error e, st)
          | .ok parsed =>
            let prevPageVisitData :=
              { parsed with pageVisitTime := some (pageVisitEndTime - parsed.pageVisitStartTime) }
            match utlRemoveSessionStorage c st with
            | (.error e, st2) => (.error e, st2)
            | (.ok _, st2) => (.ok (some prevPageVisitData), st2)
      | _, _ => (.ok none, st)
  else (.ok none, st)

/-- `stopPageVisitTimer()`: the try block with its catch, which logs a warning
and returns null. -/
def stopPageVisitTimer (c : Caps) (st : TimerState) :
    Except JsError (Option PageVisitData) × TimerState :=
  match stopBody c st with
  | (.error e, st') => (.ok none, warnToConsole ("Stop page visit timer failed: " ++ dumpObj e) st')
  | (.ok r, st') => (.ok r, st')

/-- Try block of `restartPageVisitTimer`: `stopPageVisitTimer()` then
`startPageVisitTimer(pageName, pageUrl)`, returning what stop returned. -/
def restartBody (c : Caps) (pageName pageUrl : String) (st : TimerState) :
    Except JsError (Option PageVisitData) × TimerState :=
  match stopPageVisitTimer c st with
  | (.error e, st1) => (.error e, st1)
  | (.ok prevPageVisitData, st1) =>
    match startPageVisitTimer c pageName pageUrl st1 with
    | (.error e, st2) => (.error e, st2)
    | (.ok _, st2) => (.ok prevPageVisitData, st2)

/-- `restartPageVisitTimer(pageName, pageUrl)`: the try block with its catch,
which logs a warning and returns null. -/
def restartPageVisitTimer (c : Caps) (pageName pageUrl : String) (st : TimerState) :
    Except JsError (Option PageVisitData) × TimerState :=
  match restartBody c pageName pageUrl st with
  | (.error e, st') => (.ok none, warnToConsole ("Call to restart failed: " ++ dumpObj e) st')
  | (.ok r, st') => (.ok r, st')

/-- Try block of `trackPreviousPageVisit`: restarts the timer and, if a
previous record was returned, invokes the reporting callback with that
record's `pageName`, `pageUrl` and `pageVisitTime`. -/
def trackBody (c : Caps) (currentPageName currentPageUrl : String) (st : TimerState) :
    Except JsError Unit × TimerState :=
  match restartPageVisitTimer c currentPageName currentPageUrl st with
  | (.error e, st1) => (.error e, st1)
  | (.ok prevPageVisitTimeData, st1) =>
    match prevPageVisitTimeData with
    | some prev => pageVisitTimeTrackingHandler c prev.pageName prev.pageUrl prev.pageVisitTime st1
    | none => (.ok (), st1)

/-- `trackPreviousPageVisit(currentPageName, currentPageUrl)`: the try block
with its catch, which logs a warning and swallows the failure. -/
def trackPreviousPageVisit (c : Caps) (currentPageName currentPageUrl : String)
    (st : TimerState) : Except JsError Unit × TimerState :=
  match trackBody c currentPageName currentPageUrl st with
  | (.error e, st') =>
    (.ok (), warnToConsole
      ("Auto track page visit time failed, metric will not be collected: " ++ dumpObj e) st')
  | (.ok _, st') => (.ok (), st')

instance {ε α : Type} [DecidableEq ε] [DecidableEq α] : DecidableEq (Except ε α) := fun
  | .error e, .error e' =>
    if h : e = e' then .isTrue (by rw [h]) else .isFalse (by intro hc; cases hc; exact h rfl)
  | .error _, .ok _ => .isFalse (by intro hc; cases hc)
  | .ok _, .error _ => .isFalse (by intro hc; cases hc)
  | .ok a, .ok a' =>
    if h : a = a' then .isTrue (by rw [h]) else .isFalse (by intro hc; cases hc; exact h rfl)

/-- Length-prefixed encoding of one string field of the serialized record. -/
def encStr (s : String) : String := toString s.length ++ "#" ++ s

/-- A concrete executable stringification of `PageVisitData`, standing in for
`JSON.stringify`: an unassigned `pageVisitTime` is omitted from the output,
exactly as `JSON.stringify` drops `undefined` properties. -/
def encodePVD (d : PageVisitData) : String :=
  "PVD:" ++ encStr d.pageName ++ encStr d.pageUrl ++ toString d.pageVisitStartTime ++
    (match d.pageVisitTime with
     | none => ""
     | some t => ";" ++ toString t)

/-- Reads a leading run of decimal digits; fails when there is none. -/
def readNat (cs : List Char) : Option (Nat × List Char) :=
  let ds := cs.takeWhile Char.isDigit
  let rest := cs.dropWhile Char.isDigit
  if ds.isEmpty then none
  else some (ds.foldl (fun a c => a * 10 + (c.toNat - 48)) 0, rest)

/-- Reads a leading integer (optional minus sign, then digits). -/
def readInt : List Char → Option (Int × List Char)
  | '-' :: cs => (readNat cs).map (fun p => (-(p.1 : Int), p.2))
  | cs => (readNat cs).map (fun p => ((p.1 : Int), p.2))

/-- Reads one length-prefixed string field. -/
def readLenStr (cs : List Char) : Option (String × List Char) :=
  match readNat cs with
  | some (n, '#' :: rest) =>
    if n ≤ rest.length then some (String.mk (rest.take n), rest.drop n) else none
  | _ => none

/-- A concrete executable parse of a serialized `PageVisitData`, standing in
for `JSON.parse`: inverts `encodePVD` and throws on any other string. -/
def decodePVD (s : String) : Except JsError PageVisitData :=
  match s.toList with
  | 'P' :: 'V' :: 'D' :: ':' :: cs =>
    match readLenStr cs with
    | some (name, cs1) =>
      match readLenStr cs1 with
      | some (url, cs2) =>
        match readInt cs2 with
        | some (t0, []) =>
          .ok { pageName := name, pageUrl := url, pageVisitStartTime := t0,
                pageVisitTime := none }
        | some (t0, ';' :: cs3) =>
          match readInt cs3 with
          | some (t, []) =>
            .ok { pageName := name, pageUrl := url, pageVisitStartTime := t0,
                  pageVisitTime := some t }
          | _ => .error "SyntaxError: invalid stored record"
        | _ => .error "SyntaxError: invalid stored record"
      | _ => .error "SyntaxError: invalid stored record"
    | _ => .error "SyntaxError: invalid stored record"
  | _ => .error "SyntaxError: invalid stored record"

/-- A fully healthy environment: storage and JSON available, the concrete
codec above, and no capability faults. -/
def demoCaps : Caps :=
  { canUse := true, hasJSONCap := true,
    stringifyR := fun d => .ok (encodePVD d),
    parseR := decodePVD,
    getFails := false, setFails := false, removeFails := false, handlerFails := false }

/-- An initial state: empty slot, clock at 100, nothing logged. -/
def demoState : TimerState :=
  { slot := none, time := 100, log := [], handlerCalls := [] }

/-- A healthy environment whose session-storage read throws. -/
def failGetCaps : Caps := { demoCaps with getFails := true }

/-- A healthy environment whose reporting callback throws. -/
def failHandlerCaps : Caps := { demoCaps with handlerFails := true }

/-- An environment where session storage reports unavailable. -/
def noStorageCaps : Caps := { demoCaps with canUse := false }

/-- A record as written by a start at time 40, not yet finalized. -/
def demoPrevRecord : PageVisitData :=
  { pageName := "p1", pageUrl := "u1", pageVisitStartTime := 40, pageVisitTime := none }

/-- A state in which a page is being timed: the slot holds `demoPrevRecord`. -/
def demoTimingState : TimerState :=
  { slot := some (encodePVD demoPrevRecord), time := 100, log := [], handlerCalls := [] }

/-- A state whose slot holds the empty (falsy) string. -/
def demoEmptyStrState : TimerState :=
  { slot := some "", time := 100, log := [], handlerCalls := [] }

/-- The restart operation as the specification words it: composes
`stopPageVisitTimer()` followed by `startPageVisitTimer(pageName, pageUrl)`,
in that order, and returns whatever stop returned. -/
def restartSpec (c : Caps) (pageName pageUrl : String) (st : TimerState) :
    Except JsError (Option PageVisitData) × TimerState :=
  let stopRes := stopPageVisitTimer c st
  let startRes := startPageVisitTimer c pageName pageUrl stopRes.2
  (stopRes.1, startRes.2)


/-- The public start always returns normally (the catch swallows every error). -/
theorem start_shape (c : Caps) (n u : String) (st : TimerState) :
    ∃ st1, startPageVisitTimer c n u st = (.ok (), st1) := by
  unfold startPageVisitTimer
  rcases h : startBody c n u st with ⟨e | r, st'⟩ <;> exact ⟨_, rfl⟩

/-- The public stop always returns normally. -/
theorem stop_shape (c : Caps) (st : TimerState) :
    ∃ v st1, stopPageVisitTimer c st = (.ok v, st1) := by
  unfold stopPageVisitTimer
  rcases h : stopBody c st with ⟨e | r, st'⟩ <;> exact ⟨_, _, rfl⟩

/-- The public restart always returns normally. -/
theorem restart_shape (c : Caps) (n u : String) (st : TimerState) :
    ∃ v st1, restartPageVisitTimer c n u st = (.ok v, st1) := by
  unfold restartPageVisitTimer
  rcases h : restartBody c n u st with ⟨e | r, st'⟩ <;> exact ⟨_, _, rfl⟩

/-- The public track always returns normally. -/
theorem track_shape (c : Caps) (n u : String) (st : TimerState) :
    ∃ st1, trackPreviousPageVisit c n u st = (.ok (), st1) := by
  unfold trackPreviousPageVisit
  rcases h : trackBody c n u st with ⟨e | r, st'⟩ <;> exact ⟨_, rfl⟩


/-- The start try block never touches the reporting-callback trace. -/
theorem startBody_handlerCalls (c : Caps) (n u : String) (st : TimerState) :
    (startBody c n u st).2.handlerCalls = st.handlerCalls := by
  unfold startBody utlCanUseSessionStorage utlGetSessionStorage jsonStringify
    utlSetSessionStorage
  rcases hcu : c.canUse
  · simp [hcu]
  · rcases hg : c.getFails
    · rcases hsl : st.slot with _ | s
      · rcases hj : c.hasJSONCap
        · simp [hcu, hg, hsl, hj]
        · rcases hstr : c.stringifyR (PageVisitData.new n u (dateNow st)) with e | out
          · simp [hcu, hg, hsl, hj, hstr]
          · rcases hset : c.setFails <;> simp [hcu, hg, hsl, hj, hstr, hset]
      · simp [hcu, hg, hsl]
    · simp [hcu, hg]

/-- The public start never touches the reporting-callback trace. -/
theorem start_handlerCalls (c : Caps) (n u : String) (st : TimerState) :
    (startPageVisitTimer c n u st).2.handlerCalls = st.handlerCalls := by
  have hb := startBody_handlerCalls c n u st
  unfold startPageVisitTimer
  rcases h : startBody c n u st with ⟨e | r, st'⟩ <;> rw [h] at hb <;>
    simpa [warnToConsole] using hb

/-- The stop try block never touches the reporting-callback trace. -/
theorem stopBody_handlerCalls (c : Caps) (st : TimerState) :
    (stopBody c st).2.handlerCalls = st.handlerCalls := by
  unfold stopBody utlCanUseSessionStorage utlGetSessionStorage hasJSON jsonParse
    utlRemoveSessionStorage
  rcases hcu : c.canUse
  · simp [hcu]
  · rcases hg : c.getFails
    · rcases hsl : st.slot with _ | s
      · simp [hcu, hg, hsl]
      · rcases hj : c.hasJSONCap
        · simp [hcu, hg, hsl, hj]
        · by_cases hse : s = ""
          · simp [hcu, hg, hsl, hj, hse]
          · rcases hp : c.parseR s with e | d
            · simp [hcu, hg, hsl, hj, hse, hp]
            · rcases hr : c.removeFails <;> simp [hcu, hg, hsl, hj, hse, hp, hr]
    · simp [hcu, hg]

/-- The public stop never touches the reporting-callback trace. -/
theorem stop_handlerCalls (c : Caps) (st : TimerState) :
    (stopPageVisitTimer c st).2.handlerCalls = st.handlerCalls := by
  have hb := stopBody_handlerCalls c st
  unfold stopPageVisitTimer
  rcases h : stopBody c st with ⟨e | r, st'⟩ <;> rw [h] at hb <;>
    simpa [warnToConsole] using hb

/-- The public restart never touches the reporting-callback trace. -/
theorem restart_handlerCalls (c : Caps) (n u : String) (st : TimerState) :
    (restartPageVisitTimer c n u st).2.handlerCalls = st.handlerCalls := by
  unfold restartPageVisitTimer restartBody
  have hs := stop_handlerCalls c st
  rcases h1 : stopPageVisitTimer c st with ⟨e1 | r1, st1⟩ <;> rw [h1] at hs
  · simpa [warnToConsole] using hs
  · dsimp only
    have ht := start_handlerCalls c n u st1
    rcases h2 : startPageVisitTimer c n u st1 with ⟨e2 | r2, st2⟩ <;> rw [h2] at ht <;>
      simpa [warnToConsole] using ht.trans hs

/-- C2: for every input and every behaviour of the storage, serialization and
callback capabilities (including any of them throwing), none of the four
public operations propagates an exception: each returns normally, and a
failing try block is converted into exactly the logged warning of the source
plus the safe fallback return (null or no-op). -/
theorem publicOps_never_propagate (c : Caps) (n u : String) (st : TimerState) :
    ((startPageVisitTimer c n u st).1 = .ok () ∧
      (trackPreviousPageVisit c n u st).1 = .ok () ∧
      (∃ v st1, stopPageVisitTimer c st = (.ok v, st1)) ∧
      (∃ v st1, restartPageVisitTimer c n u st = (.ok v, st1))) ∧
    (∀ e st', startBody c n u st = (.error e, st') →
      startPageVisitTimer c n u st =
        (.ok (), warnToConsole ("Call to start failed: " ++ dumpObj e) st')) ∧
    (∀ e st', stopBody c st = (.error e, st') →
      stopPageVisitTimer c st =
        (.ok none, warnToConsole ("Stop page visit timer failed: " ++ dumpObj e) st')) ∧
    (∀ e st', restartBody c n u st = (.error e, st') →
      restartPageVisitTimer c n u st =
        (.ok none, warnToConsole ("Call to restart failed: " ++ dumpObj e) st')) ∧
    (∀ e st', trackBody c n u st = (.error e, st') →
      trackPreviousPageVisit c n u st =
        (.ok (), warnToConsole
          ("Auto track page visit time failed, metric will not be collected: " ++ dumpObj e)
          st')) := by
  refine ⟨⟨?_, ?_, stop_shape c st, restart_shape c n u st⟩, ?_, ?_, ?_, ?_⟩
  · obtain ⟨st1, h⟩ := start_shape c n u st
    rw [h]
  · obtain ⟨st1, h⟩ := track_shape c n u st
    rw [h]
  · intro e st' h
    unfold startPageVisitTimer
    rw [h]
  · intro e st' h
    unfold stopPageVisitTimer
    rw [h]
  · intro e st' h
    unfold restartPageVisitTimer
    rw [h]
  · intro e st' h
    unfold trackPreviousPageVisit
    rw [h]

/-- Witness for C2: with a throwing storage read, start still returns
normally, logging the warning. -/
theorem publicOps_never_propagate_witness :
    startPageVisitTimer failGetCaps "p" "u" demoState =
      (.ok (),
       warnToConsole ("Call to start failed: " ++ dumpObj "session storage get failed")
         demoState) :=
  (publicOps_never_propagate failGetCaps "p" "u" demoState).2.1
    "session storage get failed" demoState (by decide)

/-- C5: for every capability behaviour and state, restart is observationally
equal to executing stop followed by start and returning the result stop
produced, as the specification describes it. -/
theorem restart_refines_stop_then_start (c : Caps) (n u : String) (st : TimerState) :
    restartPageVisitTimer c n u st = restartSpec c n u st := by
  unfold restartPageVisitTimer restartBody restartSpec
  obtain ⟨v, st1, h1⟩ := stop_shape c st
  rw [h1]
  dsimp only
  obtain ⟨st2, h2⟩ := start_shape c n u st1
  rw [h2]

/-- C6: when the persistence capability reports unavailable, every operation
is a no-op on the whole state: start does not throw and creates no record,
stop and restart return null, and track never invokes the reporting
callback. -/
theorem storage_unavailable_noop (c : Caps) (n u : String) (st : TimerState)
    (hc : c.canUse = false) :
    startPageVisitTimer c n u st = (.ok (), st) ∧
    stopPageVisitTimer c st = (.ok none, st) ∧
    restartPageVisitTimer c n u st = (.ok none, st) ∧
    trackPreviousPageVisit c n u st = (.ok (), st) := by
  have hstart : ∀ st0, startPageVisitTimer c n u st0 = (.ok (), st0) := by
    intro st0
    unfold startPageVisitTimer startBody utlCanUseSessionStorage
    simp [hc]
  have hstop : ∀ st0, stopPageVisitTimer c st0 = (.ok none, st0) := by
    intro st0
    unfold stopPageVisitTimer stopBody utlCanUseSessionStorage
    simp [hc]
  have hrestart : restartPageVisitTimer c n u st = (.ok none, st) := by
    unfold restartPageVisitTimer restartBody
    rw [hstop st]
    dsimp only
    rw [hstart st]
  have htrack : trackPreviousPageVisit c n u st = (.ok (), st) := by
    unfold trackPreviousPageVisit trackBody
    rw [hrestart]
  exact ⟨hstart st, hstop st, hrestart, htrack⟩

/-- Witness for C6: with storage reporting unavailable, all four operations
leave the concrete initial state untouched. -/
theorem storage_unavailable_noop_witness :
    startPageVisitTimer noStorageCaps "p" "u" demoState = (.ok (), demoState) ∧
    stopPageVisitTimer noStorageCaps demoState = (.ok none, demoState) ∧
    restartPageVisitTimer noStorageCaps "p" "u" demoState = (.ok none, demoState) ∧
    trackPreviousPageVisit noStorageCaps "p" "u" demoState = (.ok (), demoState) :=
  storage_unavailable_noop noStorageCaps "p" "u" demoState rfl


/-- Inversion: a stop that returned a record ran the full success path, so
storage was usable, the read succeeded, and the new state is the old one with
the slot cleared. -/
theorem stop_some_inv (c : Caps) (st st' : TimerState) (d : PageVisitData)
    (h : stopPageVisitTimer c st = (.ok (some d), st')) :
    c.canUse = true ∧ c.getFails = false ∧ st' = { st with slot := none } := by
  unfold stopPageVisitTimer stopBody utlCanUseSessionStorage utlGetSessionStorage
    hasJSON jsonParse utlRemoveSessionStorage dateNow at h
  rcases hcu : c.canUse <;> rw [hcu] at h
  · simp at h
  · rcases hg : c.getFails <;> rw [hg] at h
    · rcases hsl : st.slot with _ | s <;> rw [hsl] at h
      · simp at h
      · rcases hj : c.hasJSONCap <;> rw [hj] at h
        · simp at h
        · by_cases hse : s = ""
          · simp [hse] at h
          · simp only [Bool.false_eq_true, if_false, if_true, hse, ite_false] at h
            rcases hp : c.parseR s with e | d0 <;> rw [hp] at h
            · simp [warnToConsole] at h
            · rcases hr : c.removeFails <;> rw [hr] at h
              · simp at h
                exact ⟨rfl, rfl, h.2.symm⟩
              · simp [warnToConsole] at h
    · simp [warnToConsole] at h

/-- C7: stop on an idle (empty-slot) timer returns null and does not throw,
and after any stop that returned a record the slot is cleared, so an
immediately following stop returns null and changes nothing. -/
theorem stop_idle_null_and_second_stop_null :
    (∀ (c : Caps) (st : TimerState), st.slot = none →
      (stopPageVisitTimer c st).1 = .ok none) ∧
    (∀ (c : Caps) (st st' : TimerState) (d : PageVisitData),
      stopPageVisitTimer c st = (.ok (some d), st') →
      stopPageVisitTimer c st' = (.ok none, st')) := by
  constructor
  · intro c st hsl
    unfold stopPageVisitTimer stopBody utlCanUseSessionStorage utlGetSessionStorage
    rcases hcu : c.canUse <;> rcases hg : c.getFails <;> simp [hcu, hg, hsl]
  · intro c st st' d h
    obtain ⟨hcu, hg, hst'⟩ := stop_some_inv c st st' d h
    subst hst'
    unfold stopPageVisitTimer stopBody utlCanUseSessionStorage utlGetSessionStorage
    simp [hcu, hg]

/-- Witness for C7: stop on the empty-slot demo state returns null, and after
the stop that finalized the demo record a second stop returns null. -/
theorem stop_idle_null_and_second_stop_null_witness :
    (stopPageVisitTimer demoCaps demoState).1 = .ok none ∧
    stopPageVisitTimer demoCaps { demoTimingState with slot := none } =
      (.ok none, { demoTimingState with slot := none }) :=
  ⟨stop_idle_null_and_second_stop_null.1 demoCaps demoState rfl,
   stop_idle_null_and_second_stop_null.2 demoCaps demoTimingState
     { demoTimingState with slot := none }
     { pageName := "p1", pageUrl := "u1", pageVisitStartTime := 40, pageVisitTime := some 60 }
     (by decide)⟩

/-- C1: whenever the internal restart returns a non-null previous record,
trackPreviousPageVisit invokes the reporting callback exactly once, with that
previous record's pageName, pageUrl and visit duration — never the new
page's data; when restart returns null the callback is not invoked. -/
theorem track_invokes_handler_once_with_prev (c : Caps) (n u : String) (st : TimerState) :
    (∀ prev, (restartPageVisitTimer c n u st).1 = .ok (some prev) →
      (trackPreviousPageVisit c n u st).2.handlerCalls =
        st.handlerCalls ++ [(prev.pageName, prev.pageUrl, prev.pageVisitTime)]) ∧
    ((restartPageVisitTimer c n u st).1 = .ok none →
      (trackPreviousPageVisit c n u st).2.handlerCalls = st.handlerCalls) := by
  have hr := restart_handlerCalls c n u st
  unfold trackPreviousPageVisit trackBody
  rcases h1 : restartPageVisitTimer c n u st with ⟨e1 | r1, st1⟩ <;> rw [h1] at hr <;>
    dsimp only at hr
  · constructor
    · intro prev hp
      simp at hp
    · intro hp
      simp at hp
  · dsimp only
    rcases r1 with _ | prev0
    · constructor
      · intro prev hp
        simp at hp
      · intro _
        simpa using hr
    · constructor
      · intro prev hp
        simp at hp
        subst hp
        unfold pageVisitTimeTrackingHandler
        rcases hh : c.handlerFails <;> simp [hh, warnToConsole, hr]
      · intro hp
        simp at hp

/-- Witness for C1: on the demo timing state the callback receives exactly the
previous record's identity and its 60-unit duration. -/
theorem track_invokes_handler_once_with_prev_witness :
    (trackPreviousPageVisit demoCaps "p2" "u2" demoTimingState).2.handlerCalls =
      demoTimingState.handlerCalls ++ [("p1", "u1", some 60)] :=
  (track_invokes_handler_once_with_prev demoCaps "p2" "u2" demoTimingState).1
    { pageName := "p1", pageUrl := "u1", pageVisitStartTime := 40, pageVisitTime := some 60 }
    (by decide)

/-- C3: with storage available and a well-behaved codec, start writes its
record and a later stop returns that record, with the original name and url,
duration equal to the stop-time clock minus the recorded start time (zero for
an immediate stop), and clears the slot. -/
theorem start_then_stop_roundtrip (c : Caps) (name url : String) (st : TimerState)
    (t1 : Int) (s : String)
    (hcu : c.canUse = true) (hj : c.hasJSONCap = true)
    (hg : c.getFails = false) (hset : c.setFails = false) (hrem : c.removeFails = false)
    (hempty : st.slot = none)
    (henc : c.stringifyR (PageVisitData.new name url st.time) = .ok s) (hne : s ≠ "")
    (hdec : c.parseR s = .ok (PageVisitData.new name url st.time)) :
    startPageVisitTimer c name url st = (.ok (), { st with slot := some s }) ∧
    stopPageVisitTimer c { (startPageVisitTimer c name url st).2 with time := t1 } =
      (.ok (some { pageName := name, pageUrl := url, pageVisitStartTime := st.time,
                   pageVisitTime := some (t1 - st.time) }),
       { st with slot := none, time := t1 }) := by
  have hstart : startPageVisitTimer c name url st = (.ok (), { st with slot := some s }) := by
    unfold startPageVisitTimer startBody utlCanUseSessionStorage utlGetSessionStorage
      jsonStringify utlSetSessionStorage dateNow
    simp [hcu, hg, hempty, hj, henc, hset]
  refine ⟨hstart, ?_⟩
  rw [hstart]
  unfold stopPageVisitTimer stopBody utlCanUseSessionStorage utlGetSessionStorage
    hasJSON jsonParse utlRemoveSessionStorage dateNow
  simp [hcu, hg, hj, hne, hdec, hrem, PageVisitData.new]

/-- Witness for C3: starting "p1"/"u1" at time 100 and stopping at time 130
yields the record back with duration 30 and an empty slot. -/
theorem start_then_stop_roundtrip_witness :
    startPageVisitTimer demoCaps "p1" "u1" demoState =
      (.ok (), { demoState with slot := some (encodePVD (PageVisitData.new "p1" "u1" 100)) }) ∧
    stopPageVisitTimer demoCaps
        { (startPageVisitTimer demoCaps "p1" "u1" demoState).2 with time := 130 } =
      (.ok (some { pageName := "p1", pageUrl := "u1", pageVisitStartTime := 100,
                   pageVisitTime := some 30 }),
       { demoState with slot := none, time := 130 }) :=
  start_then_stop_roundtrip demoCaps "p1" "u1" demoState 130
    (encodePVD (PageVisitData.new "p1" "u1" 100))
    rfl rfl rfl rfl rfl rfl rfl (by decide) (by decide)

/-- C4: starting while the slot holds a record raises the consecutive-start
error inside the try block; the public operation catches it, logs the warning
and returns normally with the slot unchanged, and the originally started
record is still retrievable by a subsequent stop. -/
theorem consecutive_start_swallowed (c : Caps) (n u : String) (st : TimerState)
    (s : String) (d : PageVisitData)
    (hcu : c.canUse = true) (hg : c.getFails = false)
    (hslot : st.slot = some s) :
    startBody c n u st = (.error consecutiveStartMsg, st) ∧
    startPageVisitTimer c n u st =
      (.ok (), warnToConsole ("Call to start failed: " ++ consecutiveStartMsg) st) ∧
    (c.hasJSONCap = true → s ≠ "" → c.parseR s = .ok d → c.removeFails = false →
      stopPageVisitTimer c (startPageVisitTimer c n u st).2 =
        (.ok (some { d with pageVisitTime := some (st.time - d.pageVisitStartTime) }),
         { warnToConsole ("Call to start failed: " ++ consecutiveStartMsg) st with
             slot := none })) := by
  have hbody : startBody c n u st = (.error consecutiveStartMsg, st) := by
    unfold startBody utlCanUseSessionStorage utlGetSessionStorage
    simp [hcu, hg, hslot]
  have hstart : startPageVisitTimer c n u st =
      (.ok (), warnToConsole ("Call to start failed: " ++ consecutiveStartMsg) st) := by
    unfold startPageVisitTimer
    rw [hbody]
    rfl
  refine ⟨hbody, hstart, ?_⟩
  intro hj hne hp hrem
  rw [hstart]
  unfold stopPageVisitTimer stopBody utlCanUseSessionStorage utlGetSessionStorage
    hasJSON jsonParse utlRemoveSessionStorage dateNow warnToConsole
  simp [hcu, hg, hslot, hj, hne, hp, hrem]

/-- Witness for C4: a second start on the demo timing state fails internally,
is swallowed with a logged warning, and stop still finalizes the original
record with duration 60. -/
theorem consecutive_start_swallowed_witness :
    startBody demoCaps "p2" "u2" demoTimingState =
      (.error consecutiveStartMsg, demoTimingState) ∧
    startPageVisitTimer demoCaps "p2" "u2" demoTimingState =
      (.ok (), warnToConsole ("Call to start failed: " ++ consecutiveStartMsg)
        demoTimingState) ∧
    stopPageVisitTimer demoCaps (startPageVisitTimer demoCaps "p2" "u2" demoTimingState).2 =
      (.ok (some { demoPrevRecord with pageVisitTime := some 60 }),
       { warnToConsole ("Call to start failed: " ++ consecutiveStartMsg) demoTimingState with
           slot := none }) := by
  obtain ⟨h1, h2, h3⟩ := consecutive_start_swallowed demoCaps "p2" "u2" demoTimingState
    (encodePVD demoPrevRecord) demoPrevRecord rfl rfl rfl
  exact ⟨h1, h2, h3 rfl (by decide) (by decide) rfl⟩

/-- C8: the constructor leaves `pageVisitTime` unset, and whenever start
changes the slot it writes the stringification of a record whose
`pageVisitTime` is unset — the duration is assigned only by stop. -/
theorem duration_unset_until_stop (c : Caps) (n u : String) (st : TimerState) (t : Int) :
    (PageVisitData.new n u t).pageVisitTime = none ∧
    ((startPageVisitTimer c n u st).2.slot ≠ st.slot →
      ∃ s, (startPageVisitTimer c n u st).2.slot = some s ∧
        c.stringifyR (PageVisitData.new n u st.time) = .ok s) := by
  refine ⟨rfl, ?_⟩
  intro hchg
  unfold startPageVisitTimer startBody utlCanUseSessionStorage utlGetSessionStorage
    jsonStringify utlSetSessionStorage dateNow at hchg ⊢
  rcases hcu : c.canUse <;>
    rcases hg : c.getFails <;>
      rcases hj : c.hasJSONCap <;>
        rcases hset : c.setFails <;>
          rcases hsl : st.slot with _ | s0 <;>
            rcases hstr : c.stringifyR (PageVisitData.new n u st.time) with e | out <;>
              simp [hcu, hg, hj, hset, hsl, hstr, warnToConsole] at hchg ⊢

/-- Witness for C8: on the demo state start changes the slot and the written
string is the encoding of the record with no duration. -/
theorem duration_unset_until_stop_witness :
    (PageVisitData.new "p1" "u1" 100).pageVisitTime = none ∧
    ∃ s, (startPageVisitTimer demoCaps "p1" "u1" demoState).2.slot = some s ∧
      demoCaps.stringifyR (PageVisitData.new "p1" "u1" demoState.time) = .ok s :=
  ⟨(duration_unset_until_stop demoCaps "p1" "u1" demoState 100).1,
   (duration_unset_until_stop demoCaps "p1" "u1" demoState 100).2 (by decide)⟩

/-- C9: when storage is available and the slot holds a value, but the stored
string is falsy (empty) or JSON is unavailable, stop returns null and leaves
the slot entry in place. -/
theorem stop_falsy_or_nojson_keeps_slot (c : Caps) (st : TimerState) (s : String)
    (hcu : c.canUse = true) (hslot : st.slot = some s)
    (hfalsy : s = "" ∨ c.hasJSONCap = false) :
    (stopPageVisitTimer c st).1 = .ok none ∧
    (stopPageVisitTimer c st).2.slot = st.slot := by
  unfold stopPageVisitTimer stopBody utlCanUseSessionStorage utlGetSessionStorage hasJSON
  rcases hg : c.getFails
  · rcases hfalsy with hse | hjf
    · subst hse
      rcases hj : c.hasJSONCap <;> simp [hcu, hg, hslot, hj, warnToConsole]
    · simp [hcu, hg, hslot, hjf, warnToConsole]
  · simp [hcu, hg, hslot, warnToConsole]

/-- Witness for C9: with an empty string stored, stop returns null and the
slot still holds the empty string. -/
theorem stop_falsy_or_nojson_keeps_slot_witness :
    (stopPageVisitTimer demoCaps demoEmptyStrState).1 = .ok none ∧
    (stopPageVisitTimer demoCaps demoEmptyStrState).2.slot = demoEmptyStrState.slot :=
  stop_falsy_or_nojson_keeps_slot demoCaps demoEmptyStrState "" rfl rfl (Or.inl rfl)

/-- C10: when the reporting callback throws during trackPreviousPageVisit,
the error is caught and logged, and the slot still holds the newly started
page's record: restart completed before the callback ran, so the callback
failure does not undo the new page's timing. -/
theorem handler_error_caught_new_record_kept (c : Caps) (n u : String) (st : TimerState)
    (s s' : String) (d : PageVisitData)
    (hcu : c.canUse = true) (hj : c.hasJSONCap = true)
    (hg : c.getFails = false) (hset : c.setFails = false) (hrem : c.removeFails = false)
    (hhf : c.handlerFails = true)
    (hslot : st.slot = some s) (hne : s ≠ "") (hp : c.parseR s = .ok d)
    (henc : c.stringifyR (PageVisitData.new n u st.time) = .ok s') :
    trackPreviousPageVisit c n u st =
      (.ok (),
       { st with
           slot := some s',
           log := st.log ++
             ["Auto track page visit time failed, metric will not be collected: " ++
               "tracking handler failed"],
           handlerCalls := st.handlerCalls ++
             [(d.pageName, d.pageUrl, some (st.time - d.pageVisitStartTime))] }) := by
  have hstop : stopPageVisitTimer c st =
      (.ok (some { d with pageVisitTime := some (st.time - d.pageVisitStartTime) }),
       { st with slot := none }) := by
    unfold stopPageVisitTimer stopBody utlCanUseSessionStorage utlGetSessionStorage hasJSON
      jsonParse utlRemoveSessionStorage dateNow
    simp [hcu, hg, hslot, hj, hne, hp, hrem]
  have hstart : startPageVisitTimer c n u { st with slot := none } =
      (.ok (), { st with slot := some s' }) := by
    unfold startPageVisitTimer startBody utlCanUseSessionStorage utlGetSessionStorage
      jsonStringify utlSetSessionStorage dateNow
    simp [hcu, hg, hj, henc, hset]
  have hrestart : restartPageVisitTimer c n u st =
      (.ok (some { d with pageVisitTime := some (st.time - d.pageVisitStartTime) }),
       { st with slot := some s' }) := by
    unfold restartPageVisitTimer restartBody
    rw [hstop]
    dsimp only
    rw [hstart]
  unfold trackPreviousPageVisit trackBody
  rw [hrestart]
  dsimp only
  unfold pageVisitTimeTrackingHandler
  simp [hhf, warnToConsole, dumpObj]

/-- Witness for C10: a throwing callback on the demo timing state is logged
and the slot afterwards holds page "p2" started at time 100. -/
theorem handler_error_caught_new_record_kept_witness :
    trackPreviousPageVisit failHandlerCaps "p2" "u2" demoTimingState =
      (.ok (),
       { demoTimingState with
           slot := some (encodePVD (PageVisitData.new "p2" "u2" 100)),
           log := demoTimingState.log ++
             ["Auto track page visit time failed, metric will not be collected: " ++
               "tracking handler failed"],
           handlerCalls := demoTimingState.handlerCalls ++ [("p1", "u1", some 60)] }) :=
  handler_error_caught_new_record_kept failHandlerCaps "p2" "u2" demoTimingState
    (encodePVD demoPrevRecord) (encodePVD (PageVisitData.new "p2" "u2" 100)) demoPrevRecord
    rfl rfl rfl rfl rfl rfl rfl (by decide) (by decide) rfl
